import Mathlib

/-!
Verification development for the cluster-state aggregation and
configuration-synthesis engine of the mimir coordinator charm.

The definitions below are a shallow embedding of the Python sources:
  - `src/mimir_cluster.py` (role vocabulary, databag codec, aggregation),
  - `src/mimir_coordinator.py` (coherence policy and config builder),
  - `src/mimir_config.py` (the newer config builder),
  - `lib/charms/mimir_coordinator_k8s/v0/mimir_cluster.py` (publish side).

Python dicts are modelled as association lists with unique keys, JSON
values as the inductive `Json`, Python sets as `Finset`, and fallible
decoding as `Except`.
-/

/-- Mimir component role names, from the `MimirRole` enum in
`mimir_cluster.py`, in enum definition order (atomic roles first, then
the four meta roles). -/
inductive MimirRole where
  | overrides_exporter
  | query_scheduler
  | flusher
  | query_frontend
  | querier
  | store_gateway
  | ingester
  | distributor
  | ruler
  | alertmanager
  | compactor
  | read
  | write
  | backend
  | all
deriving DecidableEq, Fintype

/-- The string value of each enum member (`MimirRole.<name>.value`). -/
def roleValue : MimirRole → String
  | .overrides_exporter => "overrides-exporter"
  | .query_scheduler => "query-scheduler"
  | .flusher => "flusher"
  | .query_frontend => "query-frontend"
  | .querier => "querier"
  | .store_gateway => "store-gateway"
  | .ingester => "ingester"
  | .distributor => "distributor"
  | .ruler => "ruler"
  | .alertmanager => "alertmanager"
  | .compactor => "compactor"
  | .read => "read"
  | .write => "write"
  | .backend => "backend"
  | .all => "all"

/-- `list(MimirRole)`: every enum member, in definition order. -/
def allRolesList : List MimirRole :=
  [.overrides_exporter, .query_scheduler, .flusher, .query_frontend, .querier,
   .store_gateway, .ingester, .distributor, .ruler, .alertmanager, .compactor,
   .read, .write, .backend, .all]

/-- The `META_ROLES` lookup table of `mimir_cluster.py`: a meta role maps
to its expansion list, an atomic role maps to `none`.  Note that the
entry for `all` is `list(MimirRole)`, which contains the meta roles
themselves. -/
def META_ROLES : MimirRole → Option (List MimirRole)
  | .read => some [.query_frontend, .querier]
  | .write => some [.distributor, .ingester]
  | .backend => some [.store_gateway, .compactor, .ruler, .alertmanager,
                      .query_scheduler, .overrides_exporter]
  | .all => some allRolesList
  | _ => none

/-- Whether a role is a key of `META_ROLES` (`role in META_ROLES`). -/
def isMetaRole (r : MimirRole) : Bool := (META_ROLES r).isSome

/-- The contribution of one input role inside the `expand_roles` loop:
the expansion set of a meta role, or the singleton of an atomic role. -/
def expandOne (r : MimirRole) : Finset MimirRole :=
  match META_ROLES r with
  | some l => l.toFinset
  | none => {r}

/-- `expand_roles` of `mimir_cluster.py`: fold the per-role contribution
into an accumulating set. -/
def expand_roles (roles : List MimirRole) : Finset MimirRole :=
  roles.foldl (fun s r => s ∪ expandOne r) ∅

/-- `expand_roles` applied to a set argument (Python iterates the set):
the union of the per-element contributions. -/
def expandRolesSet (s : Finset MimirRole) : Finset MimirRole :=
  s.biUnion expandOne

theorem mem_foldl_union_expand (l : List MimirRole) (acc : Finset MimirRole)
    (x : MimirRole) :
    x ∈ l.foldl (fun s r => s ∪ expandOne r) acc ↔
      x ∈ acc ∨ ∃ r ∈ l, x ∈ expandOne r := by
  induction l generalizing acc with
  | nil => simp
  | cons a tl ih =>
    simp only [List.foldl_cons, ih, Finset.mem_union, List.mem_cons]
    constructor
    · rintro (⟨h | h⟩ | ⟨r, hr, hx⟩)
      · exact Or.inl h
      · exact Or.inr ⟨a, Or.inl rfl, h⟩
      · exact Or.inr ⟨r, Or.inr hr, hx⟩
    · rintro (h | ⟨r, rfl | hr, hx⟩)
      · exact Or.inl (Or.inl h)
      · exact Or.inl (Or.inr hx)
      · exact Or.inr ⟨r, hr, hx⟩

theorem mem_expand_roles (l : List MimirRole) (x : MimirRole) :
    x ∈ expand_roles l ↔ ∃ r ∈ l, x ∈ expandOne r := by
  simp [expand_roles, mem_foldl_union_expand]

theorem expand_roles_eq_expandRolesSet (l : List MimirRole) :
    expand_roles l = expandRolesSet l.toFinset := by
  ext x
  simp [mem_expand_roles, expandRolesSet, Finset.mem_biUnion]

theorem expandOne_trans : ∀ r y x : MimirRole,
    y ∈ expandOne r → x ∈ expandOne y → x ∈ expandOne r := by decide

theorem expandOne_refl_or_all : ∀ r x : MimirRole, x ∈ expandOne r →
    ∃ y, y ∈ expandOne r ∧ x ∈ expandOne y := by decide

/-- JSON values, as stored in relation databags and produced by the
config builders.  Numbers are modelled as integers (all numbers in this
codebase are machine integers). -/
inductive Json where
  | null
  | bool (b : Bool)
  | num (n : Int)
  | str (s : String)
  | arr (elems : List Json)
  | obj (fields : List (String × Json))

/-- Dictionary lookup on an association list (Python `d.get(key)` /
`d[key]`, keys unique). -/
def lookupKV : List (String × Json) → String → Option Json
  | [], _ => none
  | (k, v) :: tl, key => if k = key then some v else lookupKV tl key

/-- Dictionary key removal (Python `d.pop(key, None)`): drop every entry
with the given key, keeping the order of the rest. -/
def eraseKey (l : List (String × Json)) (key : String) : List (String × Json) :=
  l.filter (fun kv => kv.1 != key)

/-- Dictionary assignment to an existing key (Python `d[key] = v` keeps
the key position). -/
def setKey (l : List (String × Json)) (key : String) (v : Json) :
    List (String × Json) :=
  l.map (fun kv => if kv.1 = key then (key, v) else kv)

/-- Python truthiness of a JSON value (`if value:`). -/
def truthy : Json → Bool
  | .null => false
  | .bool b => b
  | .num n => n != 0
  | .str s => s != ""
  | .arr xs => !xs.isEmpty
  | .obj fs => !fs.isEmpty

/-- A Juju databag: a flat map from string keys to JSON-encoded values.
We identify each value with its parsed JSON term, so the pair
`json.dumps` / `json.loads` on an entry is the identity. -/
abbrev Databag := List (String × Json)

/-- `BUILTIN_JUJU_KEYS`: transport-reserved keys that `DatabagModel.load`
strips before validation. -/
def BUILTIN_JUJU_KEYS : List String :=
  ["ingress-address", "private-address", "egress-subnets"]

/-- The `JujuTopology` pydantic model of `mimir_cluster.py` (fields
`model` and `unit`). -/
structure JujuTopology where
  model : String
  unit : String
deriving DecidableEq

/-- The `MimirClusterRequirerAppData` databag model: the role list a
worker application advertises. -/
structure MimirClusterRequirerAppData where
  roles : List MimirRole
deriving DecidableEq

/-- The `MimirClusterRequirerUnitData` databag model: one unit with its
topology and address. -/
structure MimirClusterRequirerUnitData where
  juju_topology : JujuTopology
  address : String
deriving DecidableEq

/-- Parse one JSON value as a `MimirRole` (pydantic validation of a
`MimirRole` field: the value must be the string value of some member). -/
def parseRole : Json → Option MimirRole
  | .str s =>
    match s with
    | "overrides-exporter" => some .overrides_exporter
    | "query-scheduler" => some .query_scheduler
    | "flusher" => some .flusher
    | "query-frontend" => some .query_frontend
    | "querier" => some .querier
    | "store-gateway" => some .store_gateway
    | "ingester" => some .ingester
    | "distributor" => some .distributor
    | "ruler" => some .ruler
    | "alertmanager" => some .alertmanager
    | "compactor" => some .compactor
    | "read" => some .read
    | "write" => some .write
    | "backend" => some .backend
    | "all" => some .all
    | _ => none
  | _ => none

/-- Parse each element of a JSON array as a role; any failure fails the
whole list (pydantic `List[MimirRole]` validation). -/
def parseRoles : List Json → Option (List MimirRole)
  | [] => some []
  | j :: tl =>
    match parseRole j, parseRoles tl with
    | some r, some rs => some (r :: rs)
    | _, _ => none

/-- Parse a JSON value as a role list: it must be an array of valid role
strings. -/
def parseRoleList : Json → Option (List MimirRole)
  | .arr xs => parseRoles xs
  | _ => none

/-- Parse a JSON value as a `JujuTopology`: an object with string fields
`model` and `unit` (extra fields are ignored, as pydantic does by
default). -/
def parseTopology : Json → Option JujuTopology
  | .obj fs =>
    match lookupKV fs "model", lookupKV fs "unit" with
    | some (.str m), some (.str u) => some ⟨m, u⟩
    | _, _ => none
  | _ => none

/-- `MimirClusterRequirerAppData.load`: strip the builtin Juju keys,
then validate the `roles` field; any mismatch is a single
`DataValidationError`. -/
def MimirClusterRequirerAppData.load (databag : Databag) :
    Except String MimirClusterRequirerAppData :=
  let data := databag.filter (fun kv => !(BUILTIN_JUJU_KEYS.contains kv.1))
  match lookupKV data "roles" with
  | some j =>
    match parseRoleList j with
    | some rs => .ok ⟨rs⟩
    | none => .error "failed to validate databag"
  | none => .error "failed to validate databag"

/-- `MimirClusterRequirerUnitData.load`: strip the builtin Juju keys,
then validate the `juju_topology` and `address` fields. -/
def MimirClusterRequirerUnitData.load (databag : Databag) :
    Except String MimirClusterRequirerUnitData :=
  let data := databag.filter (fun kv => !(BUILTIN_JUJU_KEYS.contains kv.1))
  match lookupKV data "juju_topology", lookupKV data "address" with
  | some jt, some (.str a) =>
    match parseTopology jt with
    | some t => .ok ⟨t, a⟩
    | none => .error "failed to validate databag"
  | _, _ => .error "failed to validate databag"

/-- `DatabagModel.dump` specialised to `MimirClusterRequirerAppData`:
one entry per field, JSON-encoded, in field declaration order (the
databag is cleared first, so the result is exactly these entries). -/
def MimirClusterRequirerAppData.dump (d : MimirClusterRequirerAppData) : Databag :=
  [("roles", .arr (d.roles.map (fun r => .str (roleValue r))))]

/-- `DatabagModel.dump` specialised to `MimirClusterRequirerUnitData`. -/
def MimirClusterRequirerUnitData.dump (d : MimirClusterRequirerUnitData) : Databag :=
  [("juju_topology", .obj [("model", .str d.juju_topology.model),
                           ("unit", .str d.juju_topology.unit)]),
   ("address", .str d.address)]

/-- One `mimir-cluster` relation as the provider sees it: the remote
application databag (or `none` when `relation.app` is `None`) and the
remote unit databags. -/
structure MimirRelation where
  app : Option Databag
  units : List Databag

/-- The body of the `gather_roles` loop for one relation: decode the app
databag (a failure counts as an empty role list), expand the roles, and
add the remote unit count to each expanded role, creating absent keys
with value 0 first. -/
def gatherRolesStep (acc : MimirRole → Option Nat) (rel : MimirRelation) :
    MimirRole → Option Nat :=
  match rel.app with
  | none => acc
  | some bag =>
    let worker_roles : List MimirRole :=
      match MimirClusterRequirerAppData.load bag with
      | .ok d => d.roles
      | .error _ => []
    let role_n := rel.units.length
    fun role =>
      if role ∈ expand_roles worker_roles then
        some ((acc role).getD 0 + role_n)
      else acc role

/-- `MimirClusterProvider.gather_roles`: the role → replica-count dict,
modelled as a partial map (a key absent from the dict maps to `none`). -/
def gather_roles (rels : List MimirRelation) : MimirRole → Option Nat :=
  rels.foldl gatherRolesStep (fun _ => none)

/-- The body of the inner `gather_addresses_by_role` loop for one unit:
decode the unit databag (skipping it on failure) and add its address to
the set of every role of the owning application.  Note the source does
not expand meta roles here. -/
def gatherAddrUnitStep (worker_roles : Finset MimirRole)
    (acc : MimirRole → Finset String) (ubag : Databag) :
    MimirRole → Finset String :=
  match MimirClusterRequirerUnitData.load ubag with
  | .ok u => fun role =>
      if role ∈ worker_roles then insert u.address (acc role) else acc role
  | .error _ => acc

/-- The body of the outer `gather_addresses_by_role` loop for one
relation: skip the relation when the app databag is missing or fails to
decode, otherwise fold over its units. -/
def gatherAddrRelStep (acc : MimirRole → Finset String) (rel : MimirRelation) :
    MimirRole → Finset String :=
  match rel.app with
  | none => acc
  | some bag =>
    match MimirClusterRequirerAppData.load bag with
    | .error _ => acc
    | .ok d => rel.units.foldl (gatherAddrUnitStep d.roles.toFinset) acc

/-- `MimirClusterProvider.gather_addresses_by_role`, modelled as a total
map to address sets (a key absent from the defaultdict maps to `∅`,
which is observationally what every caller sees via `.get(role, [])`). -/
def gather_addresses_by_role (rels : List MimirRelation) :
    MimirRole → Finset String :=
  rels.foldl gatherAddrRelStep (fun _ => ∅)

/-- `MimirClusterProvider.gather_addresses`: the union of all address
sets. -/
def gather_addresses (rels : List MimirRelation) : Finset String :=
  Finset.univ.biUnion (fun r => gather_addresses_by_role rels r)

/-- The `MINIMAL_DEPLOYMENT` constant of `mimir_coordinator.py`: a dict
from role to the count 1, in source order. -/
def MINIMAL_DEPLOYMENT : List (MimirRole × Nat) :=
  [(.compactor, 1), (.distributor, 1), (.ingester, 1), (.querier, 1),
   (.query_frontend, 1), (.query_scheduler, 1), (.store_gateway, 1),
   (.ruler, 1), (.alertmanager, 1)]

/-- The key set of the gathered role dict. -/
def gatherRoleKeys (rels : List MimirRelation) : Finset MimirRole :=
  Finset.univ.filter (fun r => (gather_roles rels r).isSome)

/-- `MimirCoordinator.is_coherent`: the key set of `gather_roles` must
be a superset of the keys of `MINIMAL_DEPLOYMENT`. -/
def is_coherent (rels : List MimirRelation) : Bool :=
  decide ((MINIMAL_DEPLOYMENT.map Prod.fst).toFinset ⊆ gatherRoleKeys rels)

/-- `MimirCoordinator.missing_roles`: the keys of `MINIMAL_DEPLOYMENT`
minus the keys of `gather_roles`. -/
def missing_roles (rels : List MimirRelation) : Finset MimirRole :=
  (MINIMAL_DEPLOYMENT.map Prod.fst).toFinset \ gatherRoleKeys rels

namespace MimirCoordinator

/-- `REPLICATION_MIN_WORKERS`: minimum number of workers per role to
enable replication. -/
def REPLICATION_MIN_WORKERS : Nat := 3

/-- `DEFAULT_REPLICATION`: replica count used when there are enough
workers for the role. -/
def DEFAULT_REPLICATION : Int := 3

/-- File path constants shared with the workers. -/
def MIMIR_CERT_FILE : String := "/etc/mimir/server.cert"

def MIMIR_KEY_FILE : String := "/etc/mimir/private.key"

def MIMIR_CLIENT_CA_FILE : String := "/etc/mimir/ca.cert"

/-- `MimirCoordinator._build_alertmanager_config`: the replication
factor is chosen from the number of distinct addresses gathered for the
`alertmanager` role. -/
def _build_alertmanager_config (root : String) (rels : List MimirRelation) : Json :=
  let alertmanager_scale := (gather_addresses_by_role rels .alertmanager).card
  .obj [("data_dir", .str (root ++ "/data-alertmanager")),
        ("sharding_ring", .obj [("replication_factor",
          .num (if alertmanager_scale < REPLICATION_MIN_WORKERS then 1
                else DEFAULT_REPLICATION))])]

/-- `MimirCoordinator._build_alertmanager_storage_config`. -/
def _build_alertmanager_storage_config (recovery : String) : Json :=
  .obj [("filesystem", .obj [("dir", .str (recovery ++ "/data-alertmanager"))])]

/-- `MimirCoordinator._build_compactor_config`. -/
def _build_compactor_config (root : String) : Json :=
  .obj [("data_dir", .str (root ++ "/data-compactor"))]

/-- `MimirCoordinator._build_ingester_config`: replication factor from
the `ingester` role address count. -/
def _build_ingester_config (rels : List MimirRelation) : Json :=
  let ingester_scale := (gather_addresses_by_role rels .ingester).card
  .obj [("ring", .obj [("replication_factor",
    .num (if ingester_scale < REPLICATION_MIN_WORKERS then 1
          else DEFAULT_REPLICATION))])]

/-- `MimirCoordinator._build_ruler_config`. -/
def _build_ruler_config (root : String) : Json :=
  .obj [("rule_path", .str (root ++ "/data-ruler"))]

/-- `MimirCoordinator._build_store_gateway_config`: replication factor
from the `store-gateway` role address count. -/
def _build_store_gateway_config (rels : List MimirRelation) : Json :=
  let store_gateway_scale := (gather_addresses_by_role rels .store_gateway).card
  .obj [("sharding_ring", .obj [("replication_factor",
    .num (if store_gateway_scale < REPLICATION_MIN_WORKERS then 1
          else DEFAULT_REPLICATION))])]

/-- `MimirCoordinator._build_ruler_storage_config`. -/
def _build_ruler_storage_config (root : String) : Json :=
  .obj [("filesystem", .obj [("dir", .str (root ++ "/rules"))])]

/-- `MimirCoordinator._build_blocks_storage_config`. -/
def _build_blocks_storage_config (root : String) : Json :=
  .obj [("bucket_store", .obj [("sync_dir", .str (root ++ "/tsdb-sync"))]),
        ("filesystem", .obj [("dir", .str (root ++ "/blocks"))]),
        ("tsdb", .obj [("dir", .str (root ++ "/tsdb"))])]

/-- `MimirCoordinator._build_s3_storage_config`: the S3 descriptor is a
pydantic model; `model_dump()` is its field map. -/
def _build_s3_storage_config (s3 : List (String × Json)) : Json :=
  .obj [("backend", .str "s3"), ("s3", .obj s3)]

/-- `MimirCoordinator._build_tls_config`. -/
def _build_tls_config : Json :=
  let tls_config : Json :=
    .obj [("cert_file", .str MIMIR_CERT_FILE),
          ("key_file", .str MIMIR_KEY_FILE),
          ("client_ca_file", .str MIMIR_CLIENT_CA_FILE),
          ("client_auth_type", .str "RequestClientCert")]
  .obj [("http_tls_config", tls_config), ("grpc_tls_config", tls_config)]

/-- `MimirCoordinator._build_memberlist_config`: cluster label from the
identity, join members from the gathered address set (materialised in
sorted order; set iteration order is irrelevant to every claim). -/
def _build_memberlist_config (cluster_label : String)
    (rels : List MimirRelation) : Json :=
  .obj [("cluster_label", .str cluster_label),
        ("join_members",
          .arr (((gather_addresses rels).sort (· ≤ ·)).map .str))]

/-- `MimirCoordinator._update_s3_storage_config`: when the block has a
`filesystem` entry, remove it and append a `storage_prefix` entry. -/
def _update_s3_storage_config (storage_config : List (String × Json))
    (pfx : String) : List (String × Json) :=
  if (lookupKV storage_config "filesystem").isSome then
    eraseKey storage_config "filesystem" ++ [("storage_prefix", .str pfx)]
  else storage_config

/-- Apply `_update_s3_storage_config` to the sub-dict stored at `key`
inside the top-level config dict (the Python code mutates that sub-dict
in place). -/
def updStorageAt (doc : List (String × Json)) (key pfx : String) :
    List (String × Json) :=
  match lookupKV doc key with
  | some (.obj sc) => setKey doc key (.obj (_update_s3_storage_config sc pfx))
  | _ => doc

/-- `MimirCoordinator.build_config`: assemble the shared config dict,
then, when an S3 descriptor is present, set the common storage block and
rewrite the three storage-backed blocks; finally add the TLS server
block when TLS is enabled. -/
def build_config (root recovery cluster_label : String)
    (rels : List MimirRelation) (s3_config_data : Option (List (String × Json)))
    (tls_enabled : Bool) : List (String × Json) :=
  let mimir_config : List (String × Json) :=
    [("common", .obj []),
     ("alertmanager", _build_alertmanager_config root rels),
     ("alertmanager_storage", _build_alertmanager_storage_config recovery),
     ("compactor", _build_compactor_config root),
     ("ingester", _build_ingester_config rels),
     ("ruler", _build_ruler_config root),
     ("ruler_storage", _build_ruler_storage_config root),
     ("store_gateway", _build_store_gateway_config rels),
     ("blocks_storage", _build_blocks_storage_config root),
     ("memberlist", _build_memberlist_config cluster_label rels)]
  let with_s3 : List (String × Json) :=
    match s3_config_data with
    | none => mimir_config
    | some d =>
      let c1 := setKey mimir_config "common"
        (.obj [("storage", _build_s3_storage_config d)])
      let c2 := updStorageAt c1 "blocks_storage" "blocks"
      let c3 := updStorageAt c2 "ruler_storage" "rules"
      updStorageAt c3 "alertmanager_storage" "alerts"
  if tls_enabled then with_s3 ++ [("server", _build_tls_config)] else with_s3

end MimirCoordinator

namespace MimirConfig

/-- The cluster view consumed by `MimirConfig.config` (the aggregation
itself lives in the external `coordinated_workers` library): the
role → address-set map is keyed by role name strings there, and
`join_members` is built from the materialised address list. -/
structure ClusterView where
  addresses_by_role : String → Finset String
  addresses : List String

/-- The coordinator topology fields used by
`MimirConfig._build_memberlist_config` (`topology.as_dict()`). -/
structure TopologyInfo where
  model : String
  model_uuid : String
  application : String

/-- `REPLICATION_MIN_WORKERS` of `mimir_config.py`. -/
def REPLICATION_MIN_WORKERS : Nat := 3

/-- `DEFAULT_REPLICATION` of `mimir_config.py`. -/
def DEFAULT_REPLICATION : Int := 3

/-- Worker certificate paths (`coordinated_workers.worker` constants). -/
def CERT_FILE : String := "/etc/worker/server.cert"

def KEY_FILE : String := "/etc/worker/private.key"

def CLIENT_CA_FILE : String := "/etc/worker/ca.cert"

/-- `MimirConfig._build_alertmanager_config`. -/
def _build_alertmanager_config (root : String) (cv : ClusterView) : Json :=
  let alertmanager_scale := (cv.addresses_by_role "alertmanager").card
  .obj [("data_dir", .str (root ++ "/data-alertmanager")),
        ("sharding_ring", .obj [("replication_factor",
          .num (if alertmanager_scale < REPLICATION_MIN_WORKERS then 1
                else DEFAULT_REPLICATION))])]

/-- `MimirConfig._build_alertmanager_storage_config`. -/
def _build_alertmanager_storage_config (recovery : String) : Json :=
  .obj [("filesystem", .obj [("dir", .str (recovery ++ "/data-alertmanager"))])]

/-- `MimirConfig._build_compactor_config`. -/
def _build_compactor_config (root : String) : Json :=
  .obj [("data_dir", .str (root ++ "/data-compactor"))]

/-- `MimirConfig._build_ingester_config`. -/
def _build_ingester_config (cv : ClusterView) : Json :=
  let ingester_scale := (cv.addresses_by_role "ingester").card
  .obj [("ring", .obj [("replication_factor",
    .num (if ingester_scale < REPLICATION_MIN_WORKERS then 1
          else DEFAULT_REPLICATION))])]

/-- `MimirConfig._build_ruler_config`: rule path plus the sorted,
comma-joined alertmanager URLs. -/
def _build_ruler_config (root : String) (alertmanager_urls : Finset String) : Json :=
  .obj [("rule_path", .str (root ++ "/data-ruler")),
        ("alertmanager_url",
          .str (String.intercalate "," (alertmanager_urls.sort (· ≤ ·))))]

/-- `MimirConfig._build_store_gateway_config`. -/
def _build_store_gateway_config (cv : ClusterView) : Json :=
  let store_gateway_scale := (cv.addresses_by_role "store-gateway").card
  .obj [("sharding_ring", .obj [("replication_factor",
    .num (if store_gateway_scale < REPLICATION_MIN_WORKERS then 1
          else DEFAULT_REPLICATION))])]

/-- `MimirConfig._build_ruler_storage_config`. -/
def _build_ruler_storage_config (root : String) : Json :=
  .obj [("filesystem", .obj [("dir", .str (root ++ "/rules"))])]

/-- `MimirConfig._build_blocks_storage_config`. -/
def _build_blocks_storage_config (root : String) : Json :=
  .obj [("bucket_store", .obj [("sync_dir", .str (root ++ "/tsdb-sync"))]),
        ("filesystem", .obj [("dir", .str (root ++ "/blocks"))]),
        ("tsdb", .obj [("dir", .str (root ++ "/tsdb"))])]

/-- `MimirConfig._build_s3_storage_config`.  The Python code mutates the
descriptor dict it is given: it pops `tls_ca_path` and, when that value
is truthy, stores an `http` sub-dict back into the same dict; the
returned block aliases that dict.  Modelled by state passing: the result
is the storage block together with the descriptor state after the call. -/
def _build_s3_storage_config (s3_config_data : List (String × Json)) :
    Json × List (String × Json) :=
  match lookupKV s3_config_data "tls_ca_path" with
  | none =>
    (.obj [("backend", .str "s3"), ("s3", .obj s3_config_data)], s3_config_data)
  | some v =>
    let popped := eraseKey s3_config_data "tls_ca_path"
    if truthy v then
      let withHttp := popped ++ [("http", .obj [("tls_ca_path", v)])]
      (.obj [("backend", .str "s3"), ("s3", .obj withHttp)], withHttp)
    else
      (.obj [("backend", .str "s3"), ("s3", .obj popped)], popped)

/-- `MimirConfig._build_tls_config`. -/
def _build_tls_config : Json :=
  let tls_config : Json :=
    .obj [("cert_file", .str CERT_FILE),
          ("key_file", .str KEY_FILE),
          ("client_ca_file", .str CLIENT_CA_FILE),
          ("client_auth_type", .str "RequestClientCert")]
  .obj [("http_tls_config", tls_config), ("grpc_tls_config", tls_config)]

/-- `MimirConfig._update_s3_storage_config` (same logic as the
coordinator variant). -/
def _update_s3_storage_config (storage_config : List (String × Json))
    (pfx : String) : List (String × Json) :=
  if (lookupKV storage_config "filesystem").isSome then
    eraseKey storage_config "filesystem" ++ [("storage_prefix", .str pfx)]
  else storage_config

/-- `MimirConfig._build_memberlist_config`. -/
def _build_memberlist_config (top : TopologyInfo) (cv : ClusterView) : Json :=
  .obj [("cluster_label",
          .str (top.model ++ "_" ++ top.model_uuid ++ "_" ++ top.application)),
        ("join_members", .arr (cv.addresses.map .str))]

/-- Apply `_update_s3_storage_config` to the sub-dict stored at `key`. -/
def updStorageAt (doc : List (String × Json)) (key pfx : String) :
    List (String × Json) :=
  match lookupKV doc key with
  | some (.obj sc) => setKey doc key (.obj (_update_s3_storage_config sc pfx))
  | _ => doc

/-- `MimirConfig.config`: the synthesized document (before the final
`yaml.dump`, which is a pure serialisation of it), together with the
state of the S3 descriptor after the call (the source mutates it). -/
def config (root recovery : String) (alertmanager_urls : Finset String)
    (cv : ClusterView) (top : TopologyInfo) (s3_ready : Bool)
    (s3_config_data : List (String × Json)) (certs_on_disk : Bool) :
    List (String × Json) × List (String × Json) :=
  let mimir_config : List (String × Json) :=
    [("common", .obj []),
     ("alertmanager", _build_alertmanager_config root cv),
     ("alertmanager_storage", _build_alertmanager_storage_config recovery),
     ("compactor", _build_compactor_config root),
     ("ingester", _build_ingester_config cv),
     ("ruler", _build_ruler_config root alertmanager_urls),
     ("ruler_storage", _build_ruler_storage_config root),
     ("store_gateway", _build_store_gateway_config cv),
     ("blocks_storage", _build_blocks_storage_config root),
     ("memberlist", _build_memberlist_config top cv)]
  let step : List (String × Json) × List (String × Json) :=
    if s3_ready then
      let built := _build_s3_storage_config s3_config_data
      let c1 := setKey mimir_config "common" (.obj [("storage", built.1)])
      let c2 := updStorageAt c1 "blocks_storage" "blocks"
      let c3 := updStorageAt c2 "ruler_storage" "rules"
      (updStorageAt c3 "alertmanager_storage" "alerts", built.2)
    else (mimir_config, s3_config_data)
  if certs_on_disk then (step.1 ++ [("server", _build_tls_config)], step.2)
  else step

end MimirConfig

/-- Typed errors of `mimir_cluster.py`. -/
inductive MimirClusterError where
  | dataValidation (msg : String)
  | databagAccessPermission (msg : String)
deriving DecidableEq

/-- `MimirClusterRequirer.publish_app_roles` from
`lib/charms/mimir_coordinator_k8s/v0/mimir_cluster.py`: a non-leader
caller gets a `DatabagAccessPermissionError` before anything is written;
a leader expands and deduplicates the roles and dumps them into the app
databag of the relation, when there is one.  The result pairs the raised
error (if any) with the app databag state after the call. -/
def publish_app_roles (is_leader : Bool) (roles : List MimirRole)
    (relation_app_databag : Option Databag) :
    Option MimirClusterError × Option Databag :=
  if !is_leader then
    (some (.databagAccessPermission "only the leader unit can publish roles."),
     relation_app_databag)
  else
    match relation_app_databag with
    | some _ =>
      let deduplicated_roles := allRolesList.filter (· ∈ expand_roles roles)
      (none, some (MimirClusterRequirerAppData.dump ⟨deduplicated_roles⟩))
    | none => (none, none)

/-! ## Shared helper lemmas and concrete fixtures -/

theorem parseRole_roleValue : ∀ r : MimirRole, parseRole (.str (roleValue r)) = some r := by
  decide

theorem parseRoles_map (rs : List MimirRole) :
    parseRoles (rs.map (fun r => .str (roleValue r))) = some rs := by
  induction rs with
  | nil => rfl
  | cons r tl ih => simp [parseRoles, parseRole_roleValue, ih]

theorem foldl_filter_of_skip {α β : Type} (f : β → α → β) (p : α → Bool)
    (h : ∀ b a, p a = false → f b a = b) :
    ∀ (l : List α) (b : β), (l.filter p).foldl f b = l.foldl f b := by
  intro l
  induction l with
  | nil => intro b; rfl
  | cons a tl ih =>
    intro b
    rw [List.filter_cons]
    by_cases hp : p a
    · simp only [hp, if_true, List.foldl_cons, ih]
    · simp only [Bool.not_eq_true] at hp
      simp only [hp, Bool.false_eq_true, if_false, List.foldl_cons, ih, h b a hp]

theorem lookupKV_eraseKey_self (l : List (String × Json)) (k : String) :
    lookupKV (eraseKey l k) k = none := by
  induction l with
  | nil => rfl
  | cons kv tl ih =>
    rw [eraseKey, List.filter_cons]
    rw [eraseKey] at ih
    by_cases h : kv.1 = k
    · simpa [h] using ih
    · rcases kv with ⟨k1, v1⟩
      simp only at h
      simp [h, lookupKV, ih]

theorem lookupKV_append_none (l1 l2 : List (String × Json)) (k : String)
    (h : lookupKV l1 k = none) : lookupKV (l1 ++ l2) k = lookupKV l2 k := by
  induction l1 with
  | nil => rfl
  | cons kv tl ih =>
    rcases kv with ⟨k1, v1⟩
    by_cases hk : k1 = k
    · simp [lookupKV, hk] at h
    · simp only [lookupKV, hk, if_false] at h
      simpa only [List.cons_append, lookupKV, hk, if_false] using ih h

theorem expand_roles_nil : expand_roles [] = ∅ := rfl

/-- An app databag as dumped by a worker advertising the given roles. -/
def appBag (roles : List MimirRole) : Databag :=
  MimirClusterRequirerAppData.dump ⟨roles⟩

/-- A unit databag as dumped by a worker unit with the given address. -/
def unitBag (addr : String) : Databag :=
  MimirClusterRequirerUnitData.dump ⟨⟨"mdl", "u0"⟩, addr⟩

/-- Extract the replication factor stored under the given ring key of a
subsystem block. -/
def shardingReplFactor (j : Json) (ringKey : String) : Option Json :=
  match j with
  | .obj fs =>
    match lookupKV fs ringKey with
    | some (.obj ring) => lookupKV ring "replication_factor"
    | _ => none
  | _ => none

/-- Extract the entry `sub` of the sub-dict stored at `key` of a config
document. -/
def storageSubBlock (doc : List (String × Json)) (key sub : String) : Option Json :=
  match lookupKV doc key with
  | some (.obj sc) => lookupKV sc sub
  | _ => none

/-- Whether the app databag of a relation is present and decodes. -/
def appDataOk (rel : MimirRelation) : Bool :=
  match rel.app with
  | some bag =>
    match MimirClusterRequirerAppData.load bag with
    | .ok _ => true
    | .error _ => false
  | none => false

/-- Whether a unit databag decodes. -/
def unitDataOk (u : Databag) : Bool :=
  match MimirClusterRequirerUnitData.load u with
  | .ok _ => true
  | .error _ => false

/-- Drop the unit databags of a relation that fail to decode. -/
def dropMalformedUnits (rel : MimirRelation) : MimirRelation :=
  ⟨rel.app, rel.units.filter unitDataOk⟩

/-- The coherence predicate exactly as the claim states it (count of at
least 1 for every minimal role), to compare against the source
`is_coherent`. -/
def coherentByCounts (rels : List MimirRelation) : Prop :=
  ∀ p ∈ MINIMAL_DEPLOYMENT, 1 ≤ (gather_roles rels p.1).getD 0

instance (rels : List MimirRelation) : Decidable (coherentByCounts rels) := by
  unfold coherentByCounts
  infer_instance

/-! ## C1 -/

/-- C1 counterexample: a single relation whose app databag advertises
the meta role `all` but which has zero remote units.  Every minimal role
ends up in the gathered dict with count 0 (e.g. `compactor`), yet
`is_coherent` returns true, so coherence is not equivalent to every
minimal role having count at least 1. -/
theorem c1_counterexample :
    is_coherent [⟨some (appBag [.all]), []⟩] = true ∧
    gather_roles [⟨some (appBag [.all]), []⟩] MimirRole.compactor = some 0 ∧
    ¬ coherentByCounts [⟨some (appBag [.all]), []⟩] := by
  refine ⟨by decide, by decide, by decide⟩

/-- C1 (amended): `is_coherent` returns true exactly when every role of
`MINIMAL_DEPLOYMENT` is present as a key of the `gather_roles` dict —
key presence, regardless of the stored count, decides coherence. -/
theorem c1_is_coherent_checks_key_presence (rels : List MimirRelation) :
    is_coherent rels = true ↔
      ∀ p ∈ MINIMAL_DEPLOYMENT, (gather_roles rels p.1).isSome = true := by
  simp only [is_coherent, decide_eq_true_eq, Finset.subset_iff, gatherRoleKeys,
    Finset.mem_filter, Finset.mem_univ, true_and, List.mem_toFinset, List.mem_map]
  constructor
  · intro h p hp
    exact h ⟨p, hp, rfl⟩
  · rintro h x ⟨p, hp, rfl⟩
    exact h p hp

/-! ## C2 -/

/-- A relation advertising `alertmanager` with two distinct addresses. -/
def relAm2 : MimirRelation :=
  ⟨some (appBag [.alertmanager]), [unitBag "addr.one", unitBag "addr.two"]⟩

/-- A relation advertising `alertmanager` with three distinct addresses. -/
def relAm3 : MimirRelation :=
  ⟨some (appBag [.alertmanager]),
   [unitBag "addr.one", unitBag "addr.two", unitBag "addr.three"]⟩

/-- A relation advertising `ingester` with two distinct addresses. -/
def relIng2 : MimirRelation :=
  ⟨some (appBag [.ingester]), [unitBag "addr.one", unitBag "addr.two"]⟩

/-- A relation advertising `ingester` with three distinct addresses. -/
def relIng3 : MimirRelation :=
  ⟨some (appBag [.ingester]),
   [unitBag "addr.one", unitBag "addr.two", unitBag "addr.three"]⟩

/-- A relation advertising `store-gateway` with two distinct addresses. -/
def relSg2 : MimirRelation :=
  ⟨some (appBag [.store_gateway]), [unitBag "addr.one", unitBag "addr.two"]⟩

/-- A relation advertising `store-gateway` with three distinct addresses. -/
def relSg3 : MimirRelation :=
  ⟨some (appBag [.store_gateway]),
   [unitBag "addr.one", unitBag "addr.two", unitBag "addr.three"]⟩

/-- C2: for each sharded subsystem independently, the synthesized
replication factor is 1 when the distinct-address count of that
own role of the subsystem is below 3 and 3 otherwise; instantiated at exactly
2 distinct addresses (factor 1) and exactly 3 (factor 3) for each of the
three subsystems. -/
theorem c2_replication_factor_boundary (root : String) (rels : List MimirRelation) :
    (shardingReplFactor (MimirCoordinator._build_alertmanager_config root rels)
        "sharding_ring" =
      some (.num (if (gather_addresses_by_role rels .alertmanager).card < 3
                  then 1 else 3))) ∧
    (shardingReplFactor (MimirCoordinator._build_ingester_config rels) "ring" =
      some (.num (if (gather_addresses_by_role rels .ingester).card < 3
                  then 1 else 3))) ∧
    (shardingReplFactor (MimirCoordinator._build_store_gateway_config rels)
        "sharding_ring" =
      some (.num (if (gather_addresses_by_role rels .store_gateway).card < 3
                  then 1 else 3))) ∧
    (gather_addresses_by_role [relAm2] .alertmanager).card = 2 ∧
    shardingReplFactor (MimirCoordinator._build_alertmanager_config "/data" [relAm2])
      "sharding_ring" = some (.num 1) ∧
    (gather_addresses_by_role [relAm3] .alertmanager).card = 3 ∧
    shardingReplFactor (MimirCoordinator._build_alertmanager_config "/data" [relAm3])
      "sharding_ring" = some (.num 3) ∧
    shardingReplFactor (MimirCoordinator._build_ingester_config [relIng2]) "ring" =
      some (.num 1) ∧
    shardingReplFactor (MimirCoordinator._build_ingester_config [relIng3]) "ring" =
      some (.num 3) ∧
    shardingReplFactor (MimirCoordinator._build_store_gateway_config [relSg2])
      "sharding_ring" = some (.num 1) ∧
    shardingReplFactor (MimirCoordinator._build_store_gateway_config [relSg3])
      "sharding_ring" = some (.num 3) := by
  refine ⟨rfl, rfl, rfl, by decide, rfl, by decide, rfl, rfl, rfl, rfl, rfl⟩

/-! ## C3 -/

/-- C3: with a non-null S3 descriptor, none of the three storage-backed
blocks of `build_config` keeps a `filesystem` entry and each carries its
`storage_prefix` discriminator; with a null descriptor all three keep
their filesystem directory entry and none acquires a `storage_prefix`. -/
theorem c3_storage_substitution_exclusivity (root recovery label : String)
    (rels : List MimirRelation) (d : List (String × Json)) (tls : Bool) :
    (storageSubBlock (MimirCoordinator.build_config root recovery label rels (some d) tls)
        "blocks_storage" "filesystem" = none) ∧
    (storageSubBlock (MimirCoordinator.build_config root recovery label rels (some d) tls)
        "blocks_storage" "storage_prefix" = some (.str "blocks")) ∧
    (storageSubBlock (MimirCoordinator.build_config root recovery label rels (some d) tls)
        "ruler_storage" "filesystem" = none) ∧
    (storageSubBlock (MimirCoordinator.build_config root recovery label rels (some d) tls)
        "ruler_storage" "storage_prefix" = some (.str "rules")) ∧
    (storageSubBlock (MimirCoordinator.build_config root recovery label rels (some d) tls)
        "alertmanager_storage" "filesystem" = none) ∧
    (storageSubBlock (MimirCoordinator.build_config root recovery label rels (some d) tls)
        "alertmanager_storage" "storage_prefix" = some (.str "alerts")) ∧
    (storageSubBlock (MimirCoordinator.build_config root recovery label rels none tls)
        "blocks_storage" "filesystem" = some (.obj [("dir", .str (root ++ "/blocks"))])) ∧
    (storageSubBlock (MimirCoordinator.build_config root recovery label rels none tls)
        "blocks_storage" "storage_prefix" = none) ∧
    (storageSubBlock (MimirCoordinator.build_config root recovery label rels none tls)
        "ruler_storage" "filesystem" = some (.obj [("dir", .str (root ++ "/rules"))])) ∧
    (storageSubBlock (MimirCoordinator.build_config root recovery label rels none tls)
        "ruler_storage" "storage_prefix" = none) ∧
    (storageSubBlock (MimirCoordinator.build_config root recovery label rels none tls)
        "alertmanager_storage" "filesystem" =
          some (.obj [("dir", .str (recovery ++ "/data-alertmanager"))])) ∧
    (storageSubBlock (MimirCoordinator.build_config root recovery label rels none tls)
        "alertmanager_storage" "storage_prefix" = none) := by
  refine ⟨?_, ?_, ?_, ?_, ?_, ?_, ?_, ?_, ?_, ?_, ?_, ?_⟩ <;>
    cases tls <;>
      simp [MimirCoordinator.build_config, MimirCoordinator.updStorageAt,
        MimirCoordinator._update_s3_storage_config,
        MimirCoordinator._build_blocks_storage_config,
        MimirCoordinator._build_alertmanager_storage_config,
        MimirCoordinator._build_ruler_storage_config,
        setKey, lookupKV, eraseKey, storageSubBlock, List.filter]

/-! ## C4 -/

theorem gatherRolesStep_skip (acc : MimirRole → Option Nat) (rel : MimirRelation)
    (h : appDataOk rel = false) : gatherRolesStep acc rel = acc := by
  rcases rel with ⟨app, units⟩
  cases app with
  | none => rfl
  | some bag =>
    simp only [appDataOk] at h
    cases hload : MimirClusterRequirerAppData.load bag with
    | ok d => rw [hload] at h; simp at h
    | error e =>
      funext role
      simp [gatherRolesStep, hload, expand_roles_nil]

theorem gatherAddrUnitStep_skip (s : Finset MimirRole)
    (acc : MimirRole → Finset String) (u : Databag)
    (h : unitDataOk u = false) : gatherAddrUnitStep s acc u = acc := by
  simp only [unitDataOk] at h
  cases hload : MimirClusterRequirerUnitData.load u with
  | ok d => rw [hload] at h; simp at h
  | error e => simp [gatherAddrUnitStep, hload]

theorem gatherAddrRelStep_skip (acc : MimirRole → Finset String) (rel : MimirRelation)
    (h : appDataOk rel = false) : gatherAddrRelStep acc rel = acc := by
  rcases rel with ⟨app, units⟩
  cases app with
  | none => rfl
  | some bag =>
    simp only [appDataOk] at h
    cases hload : MimirClusterRequirerAppData.load bag with
    | ok d => rw [hload] at h; simp at h
    | error e => simp [gatherAddrRelStep, hload]

theorem gatherAddrRelStep_clean (acc : MimirRole → Finset String) (rel : MimirRelation) :
    gatherAddrRelStep acc (dropMalformedUnits rel) = gatherAddrRelStep acc rel := by
  rcases rel with ⟨app, units⟩
  cases app with
  | none => rfl
  | some bag =>
    cases hload : MimirClusterRequirerAppData.load bag with
    | error e => simp [gatherAddrRelStep, dropMalformedUnits, hload]
    | ok d =>
      simp only [gatherAddrRelStep, dropMalformedUnits, hload]
      exact foldl_filter_of_skip _ unitDataOk
        (gatherAddrUnitStep_skip d.roles.toFinset) units acc

/-- C4: aggregation is total (both gather functions are plain functions
into maps, never raising) and malformed records are excluded at the
smallest scope: the role counts are exactly those of the relations whose
app databag decodes, and the addresses are exactly those obtained after
dropping undecodable app records (whole relation) and undecodable unit
records (single unit), so every well-formed peer and unit contributes as
if the malformed ones were absent. -/
theorem c4_malformed_peers_isolated (rels : List MimirRelation) :
    gather_roles rels = gather_roles (rels.filter appDataOk) ∧
    gather_addresses_by_role rels =
      gather_addresses_by_role ((rels.filter appDataOk).map dropMalformedUnits) := by
  constructor
  · unfold gather_roles
    rw [foldl_filter_of_skip gatherRolesStep appDataOk gatherRolesStep_skip]
  · unfold gather_addresses_by_role
    rw [List.foldl_map]
    have hfun : (fun acc rel => gatherAddrRelStep acc (dropMalformedUnits rel)) =
        gatherAddrRelStep :=
      funext fun acc => funext fun rel => gatherAddrRelStep_clean acc rel
    rw [hfun, foldl_filter_of_skip gatherAddrRelStep appDataOk gatherAddrRelStep_skip]

/-! ## C6 -/

/-- C6: the databag round-trip law: dumping a valid record of either
requirer databag type to a flat map and loading it back reproduces the
record exactly. -/
theorem c6_databag_roundtrip (a : MimirClusterRequirerAppData)
    (u : MimirClusterRequirerUnitData) :
    MimirClusterRequirerAppData.load (MimirClusterRequirerAppData.dump a) = .ok a ∧
    MimirClusterRequirerUnitData.load (MimirClusterRequirerUnitData.dump u) = .ok u := by
  constructor
  · rcases a with ⟨rs⟩
    simp [MimirClusterRequirerAppData.load, MimirClusterRequirerAppData.dump,
      BUILTIN_JUJU_KEYS, lookupKV, parseRoleList, parseRoles_map]
  · rcases u with ⟨⟨m, un⟩, addr⟩
    rfl

/-! ## C7 -/

/-- C7 counterexample: a peer advertising the meta role `all` with one
unit puts the meta role `read` (among others) into the aggregated role
count map, because `META_ROLES` maps `all` to the full role enumeration,
meta roles included. -/
theorem c7_counterexample :
    isMetaRole MimirRole.read = true ∧
    gather_roles [⟨some (appBag [.all]), [unitBag "a"]⟩] MimirRole.read = some 1 := by
  exact ⟨by decide, by decide⟩

theorem no_meta_in_expandOne : ∀ r m : MimirRole, r ≠ MimirRole.all →
    isMetaRole m = true → m ∉ expandOne r := by decide

theorem no_meta_in_expand_roles (l : List MimirRole) (hall : MimirRole.all ∉ l)
    (m : MimirRole) (hm : isMetaRole m = true) : m ∉ expand_roles l := by
  rw [mem_expand_roles]
  rintro ⟨r, hr, hmem⟩
  exact no_meta_in_expandOne r m (fun he => hall (he ▸ hr)) hm hmem

theorem gatherRolesStep_meta_none (acc : MimirRole → Option Nat) (rel : MimirRelation)
    (hrel : ∀ bag, rel.app = some bag → ∀ d,
      MimirClusterRequirerAppData.load bag = .ok d → MimirRole.all ∉ d.roles)
    (m : MimirRole) (hm : isMetaRole m = true) (hacc : acc m = none) :
    gatherRolesStep acc rel m = none := by
  rcases rel with ⟨app, units⟩
  cases app with
  | none => exact hacc
  | some bag =>
    cases hload : MimirClusterRequirerAppData.load bag with
    | error e =>
      simp only [gatherRolesStep, hload, expand_roles_nil]
      simpa using hacc
    | ok d =>
      have hall := hrel bag rfl d hload
      have hnot := no_meta_in_expand_roles d.roles hall m hm
      simp only [gatherRolesStep, hload]
      simp [hnot, hacc]

/-- C7 (amended): meta roles stay out of the aggregated view only as
long as no peer advertises the meta role `all`: if every decodable app
record avoids `all`, then no meta role is a key of `gather_roles`.
(When some peer does advertise `all`, the meta roles themselves appear,
see the counterexample.) -/
theorem c7_no_meta_roles_without_all (rels : List MimirRelation)
    (h : ∀ rel ∈ rels, ∀ bag, rel.app = some bag → ∀ d,
      MimirClusterRequirerAppData.load bag = .ok d → MimirRole.all ∉ d.roles)
    (m : MimirRole) (hm : isMetaRole m = true) : gather_roles rels m = none := by
  unfold gather_roles
  have key : ∀ (l : List MimirRelation) (acc : MimirRole → Option Nat),
      (∀ rel ∈ l, ∀ bag, rel.app = some bag → ∀ d,
        MimirClusterRequirerAppData.load bag = .ok d → MimirRole.all ∉ d.roles) →
      acc m = none → (l.foldl gatherRolesStep acc) m = none := by
    intro l
    induction l with
    | nil => intro acc _ hacc; exact hacc
    | cons a tl ih =>
      intro acc hl hacc
      rw [List.foldl_cons]
      exact ih _ (fun rel hr => hl rel (List.mem_cons_of_mem a hr))
        (gatherRolesStep_meta_none acc a (hl a (List.mem_cons_self a tl)) m hm hacc)
  exact key rels (fun _ => none) h rfl

/-- C7 witness: a concrete cluster with one peer advertising
`[read, ingester]` (no `all`): the meta role `read` is absent from the
gathered role counts. -/
theorem c7_witness :
    gather_roles [⟨some (appBag [.read, .ingester]), [unitBag "a"]⟩] MimirRole.read
      = none := by
  have h := c7_no_meta_roles_without_all
    [⟨some (appBag [.read, .ingester]), [unitBag "a"]⟩]
    (by
      intro rel hrel bag hbag d hload
      rcases List.mem_singleton.mp hrel with rfl
      simp only at hbag
      cases hbag
      have hd : d = ⟨[.read, .ingester]⟩ := by
        have hc : MimirClusterRequirerAppData.load (appBag [.read, .ingester]) =
            .ok ⟨[.read, .ingester]⟩ := by rfl
        rw [hc] at hload
        cases hload
        rfl
      rw [hd]
      decide)
    MimirRole.read (by decide)
  exact h

/-! ## C8 -/

/-- C8: role expansion is idempotent: expanding an already-expanded set
(expansion iterates the set, i.e. `expandRolesSet`) returns it
unchanged; in particular the expansion of any role list is a fixed point
of expansion. -/
theorem c8_expand_roles_idempotent :
    (∀ s : Finset MimirRole, expandRolesSet (expandRolesSet s) = expandRolesSet s) ∧
    (∀ l : List MimirRole, expandRolesSet (expand_roles l) = expand_roles l) := by
  have idem : ∀ s : Finset MimirRole,
      expandRolesSet (expandRolesSet s) = expandRolesSet s := by
    intro s
    ext x
    simp only [expandRolesSet, Finset.mem_biUnion]
    constructor
    · rintro ⟨y, ⟨r, hr, hy⟩, hx⟩
      exact ⟨r, hr, expandOne_trans r y x hy hx⟩
    · rintro ⟨r, hr, hx⟩
      obtain ⟨y, hy, hxy⟩ := expandOne_refl_or_all r x hx
      exact ⟨y, ⟨r, hr, hy⟩, hxy⟩
  refine ⟨idem, fun l => ?_⟩
  rw [expand_roles_eq_expandRolesSet l]
  exact idem l.toFinset

/-! ## C9 -/

/-- C9: publishing the application-level role record from a non-leader
unit raises `DatabagAccessPermissionError` and the app databag is
returned unchanged, whatever roles are being published and whatever the
databag held. -/
theorem c9_publish_app_roles_non_leader (roles : List MimirRole)
    (bag : Option Databag) :
    publish_app_roles false roles bag =
      (some (.databagAccessPermission "only the leader unit can publish roles."),
       bag) := by
  rfl

/-! ## C10 -/

theorem gatherRolesStep_mono (acc : MimirRole → Option Nat) (rel : MimirRelation)
    (role : MimirRole) (h : (acc role).isSome = true) :
    ((gatherRolesStep acc rel) role).isSome = true := by
  rcases rel with ⟨app, units⟩
  cases app with
  | none => exact h
  | some bag =>
    simp only [gatherRolesStep]
    split <;> simp [h]

theorem foldl_gatherRoles_mono (l : List MimirRelation) (acc : MimirRole → Option Nat)
    (role : MimirRole) (h : (acc role).isSome = true) :
    ((l.foldl gatherRolesStep acc) role).isSome = true := by
  induction l generalizing acc with
  | nil => exact h
  | cons a tl ih => exact ih _ (gatherRolesStep_mono acc a role h)

theorem gatherRolesStep_present (acc : MimirRole → Option Nat) (rel : MimirRelation)
    (bag : Databag) (d : MimirClusterRequirerAppData)
    (happ : rel.app = some bag)
    (hload : MimirClusterRequirerAppData.load bag = .ok d)
    (role : MimirRole) (hrole : role ∈ expand_roles d.roles) :
    ((gatherRolesStep acc rel) role).isSome = true := by
  rcases rel with ⟨app, units⟩
  simp only at happ
  subst happ
  simp [gatherRolesStep, hload, hrole]

/-- C10: a relation whose app record decodes to a role list but which
has zero unit records makes each expanded role a key of the gathered
dict (present, with value 0 when that relation is the only one), so the
role does not show up in `missing_roles` and counts as present for
`is_coherent`. -/
theorem c10_zero_unit_peer_counts_as_present (rels : List MimirRelation)
    (rel : MimirRelation) (hmem : rel ∈ rels) (bag : Databag)
    (happ : rel.app = some bag) (d : MimirClusterRequirerAppData)
    (hload : MimirClusterRequirerAppData.load bag = .ok d)
    (hunits : rel.units = []) (role : MimirRole)
    (hrole : role ∈ expand_roles d.roles) :
    (gather_roles rels role).isSome = true ∧
    gather_roles [rel] role = some 0 ∧
    role ∉ missing_roles rels := by
  have hpresent : (gather_roles rels role).isSome = true := by
    obtain ⟨l1, l2, rfl⟩ := List.append_of_mem hmem
    unfold gather_roles
    rw [List.foldl_append, List.foldl_cons]
    exact foldl_gatherRoles_mono l2 _ role
      (gatherRolesStep_present _ rel bag d happ hload role hrole)
  refine ⟨hpresent, ?_, ?_⟩
  · rcases rel with ⟨app, units⟩
    simp only at happ hunits
    subst happ
    subst hunits
    simp [gather_roles, gatherRolesStep, hload, hrole]
  · simp [missing_roles, gatherRoleKeys, Finset.mem_sdiff, Finset.mem_filter, hpresent]

/-- C10 witness: a single relation advertising `ingester` with no units:
the role is present with count 0 and not missing. -/
theorem c10_witness :
    (gather_roles [⟨some (appBag [.ingester]), []⟩] MimirRole.ingester).isSome = true ∧
    gather_roles [⟨some (appBag [.ingester]), []⟩] MimirRole.ingester = some 0 ∧
    MimirRole.ingester ∉ missing_roles [⟨some (appBag [.ingester]), []⟩] := by
  exact c10_zero_unit_peer_counts_as_present
    [⟨some (appBag [.ingester]), []⟩] ⟨some (appBag [.ingester]), []⟩
    (List.mem_singleton.mpr rfl) (appBag [.ingester]) rfl ⟨[.ingester]⟩
    (by rfl) rfl MimirRole.ingester (by decide)

/-! ## C5 -/

theorem s3_storage_config_stable (s3 : List (String × Json)) :
    MimirConfig._build_s3_storage_config (MimirConfig._build_s3_storage_config s3).2 =
      MimirConfig._build_s3_storage_config s3 := by
  cases h : lookupKV s3 "tls_ca_path" with
  | none => simp [MimirConfig._build_s3_storage_config, h]
  | some v =>
    by_cases ht : truthy v
    · have hnone : lookupKV (eraseKey s3 "tls_ca_path" ++
          [("http", Json.obj [("tls_ca_path", v)])]) "tls_ca_path" = none := by
        rw [lookupKV_append_none _ _ _ (lookupKV_eraseKey_self s3 "tls_ca_path")]
        simp [lookupKV]
      simp [MimirConfig._build_s3_storage_config, h, ht, hnone]
    · simp only [Bool.not_eq_true] at ht
      simp [MimirConfig._build_s3_storage_config, h, ht,
        lookupKV_eraseKey_self s3 "tls_ca_path"]

/-- C5 counterexample: an S3 descriptor carrying a `tls_ca_path` entry.
After one `config` call the descriptor dict is not the one the caller
supplied (the entry was popped and an `http` sub-dict was stored into the
same dict), so the inputs are not left unmodified. -/
theorem c5_counterexample :
    (MimirConfig.config "/data" "/recovery-data" ∅ ⟨fun _ => ∅, []⟩
        ⟨"some-model", "some-uuid", "mimir"⟩ true
        [("endpoint", .str "s3.example.com:9000"),
         ("tls_ca_path", .str "/etc/s3/ca.cert")] false).2 ≠
      [("endpoint", .str "s3.example.com:9000"),
       ("tls_ca_path", .str "/etc/s3/ca.cert")] := by
  intro h
  have hl : lookupKV
      (MimirConfig.config "/data" "/recovery-data" ∅ ⟨fun _ => ∅, []⟩
        ⟨"some-model", "some-uuid", "mimir"⟩ true
        [("endpoint", .str "s3.example.com:9000"),
         ("tls_ca_path", .str "/etc/s3/ca.cert")] false).2
      "tls_ca_path" = none := by rfl
  rw [h] at hl
  simp [lookupKV] at hl

/-- C5 (amended): `config` is deterministic — a second call that reuses
the (possibly mutated) descriptor state of a first call with otherwise
identical inputs yields exactly the same document and the same
descriptor state — but the descriptor is only left unmodified when it
has no `tls_ca_path` entry; when it has one, the first call rewrites the
descriptor in place (see the counterexample). -/
theorem c5_config_deterministic_but_mutates_descriptor (root recovery : String)
    (amUrls : Finset String) (cv : MimirConfig.ClusterView)
    (top : MimirConfig.TopologyInfo) (s3r : Bool) (s3 : List (String × Json))
    (certs : Bool) :
    MimirConfig.config root recovery amUrls cv top s3r
        (MimirConfig.config root recovery amUrls cv top s3r s3 certs).2 certs =
      MimirConfig.config root recovery amUrls cv top s3r s3 certs ∧
    (lookupKV s3 "tls_ca_path" = none →
      (MimirConfig.config root recovery amUrls cv top s3r s3 certs).2 = s3) := by
  constructor
  · cases s3r <;> cases certs <;>
      simp [MimirConfig.config, s3_storage_config_stable]
  · intro h
    cases s3r <;> cases certs <;>
      simp [MimirConfig.config, MimirConfig._build_s3_storage_config, h]

/-- C5 witness: with a concrete descriptor that has no `tls_ca_path`
entry, the descriptor state after a `config` call is the descriptor
itself. -/
theorem c5_witness :
    (MimirConfig.config "/data" "/recovery-data" ∅ ⟨fun _ => ∅, []⟩
        ⟨"some-model", "some-uuid", "mimir"⟩ true
        [("endpoint", .str "s3.example.com:9000")] false).2 =
      [("endpoint", .str "s3.example.com:9000")] := by
  exact (c5_config_deterministic_but_mutates_descriptor "/data" "/recovery-data" ∅
    ⟨fun _ => ∅, []⟩ ⟨"some-model", "some-uuid", "mimir"⟩ true
    [("endpoint", .str "s3.example.com:9000")] false).2 (by rfl)
